import Mathlib

/-!
Shallow embedding of the startup-valuation core (`buildValuation` and
`buildInsights` from the valuation-tool page module).  All JavaScript
number arithmetic is modelled over `ℚ`: the pipeline uses only `+`, `-`,
`*`, `/` by non-zero constants, `min`/`max` clamping and an integer
power `(1 + g/100)^12`, all of which are exact rational operations.
Each definition mirrors one local constant of the source, keeping its
name and formula.
-/

namespace Valuation

/-- Funding-stage keys (source: `stageConfig` object keys). -/
inductive Stage
| concept
| seed
| seriesA
| seriesB
| seriesC
deriving DecidableEq, Repr

/-- Static per-stage profile (source: the `stageConfig` record values). -/
structure StageProfile where
  label : String
  baseValuationFloor : ℚ
  baseValuationCeiling : ℚ
  revenueMultipleRange : ℚ × ℚ
  typicalRange : String

/-- The five fixed stage profiles (source: `stageConfig`). -/
def stageConfig : Stage → StageProfile
| .concept =>
  { label := "Concept / Pre-seed"
    baseValuationFloor := 250000
    baseValuationCeiling := 2500000
    revenueMultipleRange := (0, 0)
    typicalRange := "$250K - $2M" }
| .seed =>
  { label := "Seed / MVP"
    baseValuationFloor := 1000000
    baseValuationCeiling := 10000000
    revenueMultipleRange := (8, 15)
    typicalRange := "$2M - $10M" }
| .seriesA =>
  { label := "Series A"
    baseValuationFloor := 10000000
    baseValuationCeiling := 80000000
    revenueMultipleRange := (10, 25)
    typicalRange := "$15M - $60M" }
| .seriesB =>
  { label := "Series B"
    baseValuationFloor := 40000000
    baseValuationCeiling := 250000000
    revenueMultipleRange := (8, 18)
    typicalRange := "$50M - $200M" }
| .seriesC =>
  { label := "Series C+"
    baseValuationFloor := 100000000
    baseValuationCeiling := 1000000000
    revenueMultipleRange := (6, 15)
    typicalRange := "$150M+" }

/-- Input record (source: `StartupInputs`). -/
structure StartupInputs where
  name : String
  stage : Stage
  arr : ℚ
  monthlyGrowth : ℚ
  tam : ℚ
  grossMargin : ℚ
  netRetention : ℚ
  burnMultiple : ℚ
  teamStrength : ℚ
  differentiation : ℚ

/-- Multiplicative lift factors reported for transparency (source:
`ValuationSnapshot.lifts`). -/
structure Lifts where
  growth : ℚ
  margin : ℚ
  retention : ℚ
  burn : ℚ
  qualitative : ℚ
deriving DecidableEq

/-- Output record (source: `ValuationSnapshot`). -/
structure ValuationSnapshot where
  bear : ℚ
  base : ℚ
  bull : ℚ
  revenueMultiple : ℚ
  confidence : ℚ
  forwardArr : ℚ
  marketPotential : ℚ
  stageLabel : String
  lifts : Lifts
deriving DecidableEq

/-- Source helper `clamp(value, min, max) = Math.min(Math.max(value, min), max)`. -/
def clamp (value mn mx : ℚ) : ℚ := min (max value mn) mx

/- Input normalization (source: the local constants at the top of
`buildValuation`).  `safeNumber` replaces non-finite values by 0; over `ℚ`
every value is finite, so it is the identity here. -/

/-- `arr = Math.max(safeNumber(inputs.arr), 0)`. -/
def arr (i : StartupInputs) : ℚ := max i.arr 0

/-- `arrUsd = arr * 1_000_000`. -/
def arrUsd (i : StartupInputs) : ℚ := arr i * 1000000

/-- `tamUsd = Math.max(safeNumber(inputs.tam), 0.1) * 1_000_000_000`. -/
def tamUsd (i : StartupInputs) : ℚ := max i.tam 0.1 * 1000000000

/-- `monthlyGrowth = clamp(safeNumber(inputs.monthlyGrowth), 0, 50)`. -/
def monthlyGrowth (i : StartupInputs) : ℚ := clamp i.monthlyGrowth 0 50

/-- `margin = clamp(safeNumber(inputs.grossMargin), 20, 95)`. -/
def margin (i : StartupInputs) : ℚ := clamp i.grossMargin 20 95

/-- `retention = clamp(safeNumber(inputs.netRetention), 50, 180)`. -/
def retention (i : StartupInputs) : ℚ := clamp i.netRetention 50 180

/-- `burn = clamp(safeNumber(inputs.burnMultiple), 0, 5)`. -/
def burn (i : StartupInputs) : ℚ := clamp i.burnMultiple 0 5

/-- `team = clamp(safeNumber(inputs.teamStrength), 1, 5)`. -/
def team (i : StartupInputs) : ℚ := clamp i.teamStrength 1 5

/-- `moat = clamp(safeNumber(inputs.differentiation), 1, 5)`. -/
def moat (i : StartupInputs) : ℚ := clamp i.differentiation 1 5

/-- `annualGrowthRate = Math.pow(1 + monthlyGrowth / 100, 12) - 1`. -/
def annualGrowthRate (i : StartupInputs) : ℚ := (1 + monthlyGrowth i / 100) ^ 12 - 1

/-- Method-selection condition (source: the `if` guard
`inputs.stage === 'concept' || (inputs.stage === 'seed' && arrUsd < 100_000)`). -/
def usesBerkus (i : StartupInputs) : Prop :=
  i.stage = Stage.concept ∨ (i.stage = Stage.seed ∧ arrUsd i < 100000)

instance (i : StartupInputs) : Decidable (usesBerkus i) := by
  unfold usesBerkus
  infer_instance

/- Berkus branch (source: the pre-revenue branch of `buildValuation`). -/

/-- `ideaValue = (moat / 5) * 500_000`. -/
def ideaValue (i : StartupInputs) : ℚ := (moat i / 5) * 500000

/-- `prototypeValue = (arrUsd > 0 ? 0.8 : monthlyGrowth > 0 ? 0.5 : 0.2) * 500_000`. -/
def prototypeValue (i : StartupInputs) : ℚ :=
  (if arrUsd i > 0 then (0.8 : ℚ) else if monthlyGrowth i > 0 then 0.5 else 0.2) * 500000

/-- `teamValue = (team / 5) * 500_000`. -/
def teamValue (i : StartupInputs) : ℚ := (team i / 5) * 500000

/-- `strategicValue = ((team + moat) / 10) * 300_000`. -/
def strategicValue (i : StartupInputs) : ℚ := ((team i + moat i) / 10) * 300000

/-- `marketTimingValue = (tamUsd > 10_000_000_000 ? 0.7 : 0.4) * 200_000`. -/
def marketTimingValue (i : StartupInputs) : ℚ :=
  (if tamUsd i > 10000000000 then (0.7 : ℚ) else 0.4) * 200000

/-- `berkusTotal` = sum of the five Berkus components. -/
def berkusTotal (i : StartupInputs) : ℚ :=
  ideaValue i + prototypeValue i + teamValue i + strategicValue i + marketTimingValue i

/-- Berkus-branch base: `clamp(berkusTotal, stage.baseValuationFloor, stage.baseValuationCeiling)`. -/
def baseBerkus (i : StartupInputs) : ℚ :=
  clamp (berkusTotal i) (stageConfig i.stage).baseValuationFloor
    (stageConfig i.stage).baseValuationCeiling

/-- Berkus-branch market potential: `berkusTotal * 0.1`. -/
def marketPotentialBerkus (i : StartupInputs) : ℚ := berkusTotal i * 0.1

/- Revenue-multiple branch (source: the `else` branch of `buildValuation`). -/

/-- `growthScore = clamp(annualGrowthRate / 1.0, 0, 1)`. -/
def growthScore (i : StartupInputs) : ℚ := clamp (annualGrowthRate i / 1) 0 1

/-- `baseMultiple = minMult + (maxMult - minMult) * growthScore`. -/
def baseMultiple (i : StartupInputs) : ℚ :=
  (stageConfig i.stage).revenueMultipleRange.1 +
    ((stageConfig i.stage).revenueMultipleRange.2 -
      (stageConfig i.stage).revenueMultipleRange.1) * growthScore i

/-- `marginAdjustment = margin < 60 ? 0.8 : margin > 80 ? 1.1 : 1.0`. -/
def marginAdjustment (i : StartupInputs) : ℚ :=
  if margin i < 60 then 0.8 else if margin i > 80 then 1.1 else 1

/-- `retentionAdjustment = retention < 90 ? 0.85 : retention > 120 ? 1.15 : 1.0`. -/
def retentionAdjustment (i : StartupInputs) : ℚ :=
  if retention i < 90 then 0.85 else if retention i > 120 then 1.15 else 1

/-- `burnAdjustment = burn === 0 ? 1.2 : burn < 1 ? 1.15 : burn < 1.5 ? 1.1 :
burn < 2 ? 1.0 : burn < 3 ? 0.9 : 0.75`. -/
def burnAdjustment (b : ℚ) : ℚ :=
  if b = 0 then 1.2
  else if b < 1 then 1.15
  else if b < 1.5 then 1.1
  else if b < 2 then 1
  else if b < 3 then 0.9
  else 0.75

/-- `qualitativeScore = (team + moat) / 10`. -/
def qualitativeScore (i : StartupInputs) : ℚ := (team i + moat i) / 10

/-- `qualitativeAdjustment = 0.85 + qualitativeScore * 0.3`. -/
def qualitativeAdjustment (i : StartupInputs) : ℚ := 0.85 + qualitativeScore i * 0.3

/-- Revenue-branch multiple:
`clamp(baseMultiple * marginAdjustment * retentionAdjustment * burnAdjustment *
qualitativeAdjustment, minMult * 0.5, maxMult * 1.2)`. -/
def revenueMultipleRM (i : StartupInputs) : ℚ :=
  clamp
    (baseMultiple i * marginAdjustment i * retentionAdjustment i *
      burnAdjustment (burn i) * qualitativeAdjustment i)
    ((stageConfig i.stage).revenueMultipleRange.1 * 0.5)
    ((stageConfig i.stage).revenueMultipleRange.2 * 1.2)

/-- `revenueValuation = arrUsd * revenueMultiple`. -/
def revenueValuation (i : StartupInputs) : ℚ := arrUsd i * revenueMultipleRM i

/-- `forwardArr = arrUsd * (1 + annualGrowthRate)`. -/
def forwardArrRM (i : StartupInputs) : ℚ := arrUsd i * (1 + annualGrowthRate i)

/-- `tamCaptureRate = stage === 'seriesC' ? 0.001 : stage === 'seriesB' ? 0.0005 : 0.0002`. -/
def tamCaptureRate (i : StartupInputs) : ℚ :=
  if i.stage = Stage.seriesC then 0.001 else if i.stage = Stage.seriesB then 0.0005 else 0.0002

/-- `marketPotential = Math.min(tamUsd * tamCaptureRate * qualitativeAdjustment,
revenueValuation * 0.05)`. -/
def marketPotentialRM (i : StartupInputs) : ℚ :=
  min (tamUsd i * tamCaptureRate i * qualitativeAdjustment i) (revenueValuation i * 0.05)

/-- Revenue-branch base: `base = revenueValuation + marketPotential`, then
`base = clamp(base, stage.baseValuationFloor, stage.baseValuationCeiling)`, then
`base = Math.min(base, arrUsd * 50)`. -/
def baseRM (i : StartupInputs) : ℚ :=
  min
    (clamp (revenueValuation i + marketPotentialRM i)
      (stageConfig i.stage).baseValuationFloor (stageConfig i.stage).baseValuationCeiling)
    (arrUsd i * 50)

/- Scenario spread and confidence (source: the tail of `buildValuation`). -/

/-- Base valuation: Berkus branch or revenue-multiple branch by `usesBerkus`. -/
def base (i : StartupInputs) : ℚ := if usesBerkus i then baseBerkus i else baseRM i

/-- `upsideFactor = clamp(0.15 + annualGrowthRate * 0.15 + ((moat - 3) / 5) * 0.1, 0.1, 0.4)`. -/
def upsideFactor (i : StartupInputs) : ℚ :=
  clamp (0.15 + annualGrowthRate i * 0.15 + ((moat i - 3) / 5) * 0.1) 0.1 0.4

/-- `downsideFactor = clamp(0.15 + (burn > 2 ? (burn - 2) * 0.08 : 0) + ((5 - team) / 5) * 0.1, 0.1, 0.35)`. -/
def downsideFactor (i : StartupInputs) : ℚ :=
  clamp (0.15 + (if burn i > 2 then (burn i - 2) * 0.08 else 0) + ((5 - team i) / 5) * 0.1)
    0.1 0.35

/-- `bull = base * (1 + upsideFactor)`. -/
def bull (i : StartupInputs) : ℚ := base i * (1 + upsideFactor i)

/-- `bear = base * (1 - downsideFactor)`. -/
def bear (i : StartupInputs) : ℚ := base i * (1 - downsideFactor i)

/-- Confidence score (source: the `confidence` clamp in `buildValuation`). -/
def confidence (i : StartupInputs) : ℚ :=
  clamp
    (0.30 + (if arrUsd i > 500000 then (0.25 : ℚ) else if arrUsd i > 0 then 0.15 else 0) +
      0.15 * (retention i / 150) + 0.10 * (team i / 5) +
      0.10 * (1 - min (burn i) 3 / 4) + 0.10 * (moat i / 5))
    0.25 0.90

/-- `revenueMultiple` output field: forced to 0 in the Berkus branch. -/
def revenueMultiple (i : StartupInputs) : ℚ := if usesBerkus i then 0 else revenueMultipleRM i

/-- `forwardArr` output field: forced to 0 in the Berkus branch. -/
def forwardArr (i : StartupInputs) : ℚ := if usesBerkus i then 0 else forwardArrRM i

/-- `marketPotential` output field. -/
def marketPotential (i : StartupInputs) : ℚ :=
  if usesBerkus i then marketPotentialBerkus i else marketPotentialRM i

/-- The valuation engine `buildValuation(inputs)` (exposed to callers as
`computeValuation`): assembles the returned `ValuationSnapshot`. -/
def buildValuation (i : StartupInputs) : ValuationSnapshot :=
  { bear := bear i
    base := base i
    bull := bull i
    revenueMultiple := revenueMultiple i
    confidence := confidence i
    forwardArr := forwardArr i
    marketPotential := marketPotential i
    stageLabel := (stageConfig i.stage).label
    lifts :=
      { growth := 1 + annualGrowthRate i
        margin := margin i / 100
        retention := retention i / 100
        burn := burn i
        qualitative := (team i + moat i) / 10 } }

/-! ### Insight generator (`buildInsights`)

The insight text interpolates numbers through `toFixed` and a compact currency
formatter.  Their digit-level output never matters for the claims (which are
about the list's length and which sentence is selected), but they are modelled
as total executable functions so the strings are concrete. -/

/-- Left-pad a digit string with zeros to the requested length. -/
def leftPadZeros (s : String) (len : ℕ) : String :=
  String.mk (List.replicate (len - s.length) '0') ++ s

/-- Modelled from the spec: JavaScript `Number.prototype.toFixed(digits)` —
decimal rendering rounded to `digits` places (ties toward the larger value). -/
def toFixed (q : ℚ) (digits : ℕ) : String :=
  let n : ℤ := ⌊q * 10 ^ digits + 1 / 2⌋
  if digits = 0 then toString n
  else
    (if n < 0 then "-" else "") ++ toString (n.natAbs / 10 ^ digits) ++ "." ++
      leftPadZeros (toString (n.natAbs % 10 ^ digits)) digits

/-- One compact-notation component: `n / unit` with at most one fractional
digit, trailing zero dropped. -/
def compactOne (n unit : ℕ) : String :=
  let tenths := (n * 10 + unit / 2) / unit
  if tenths % 10 = 0 then toString (tenths / 10)
  else toString (tenths / 10) ++ "." ++ toString (tenths % 10)

/-- Modelled from the spec: `formatCompactCurrency` — the
`Intl.NumberFormat('en-US', compact USD, at most 1 fraction digit)` formatting
of `Math.round(Math.max(value, 0))`. -/
def formatCompactCurrency (value : ℚ) : String :=
  let n : ℕ := (⌊max value 0 + 1 / 2⌋).toNat
  if n < 1000 then "$" ++ toString n
  else if n < 1000000 then "$" ++ compactOne n 1000 ++ "K"
  else if n < 1000000000 then "$" ++ compactOne n 1000000 ++ "M"
  else if n < 1000000000000 then "$" ++ compactOne n 1000000000 ++ "B"
  else "$" ++ compactOne n 1000000000000 ++ "T"

/-- Source: `baseName = inputs.name.trim() || 'This startup'`. -/
def baseNameOf (inputs : StartupInputs) : String :=
  if inputs.name.trim = "" then "This startup" else inputs.name.trim

/-- Source: the local `annualGrowth` of `buildInsights`, computed from the RAW
monthly-growth input (unlike `buildValuation`, no clamping here). -/
def annualGrowthRaw (inputs : StartupInputs) : ℚ :=
  (1 + inputs.monthlyGrowth / 100) ^ 12 - 1

/-- Source: the local `downside` of `buildInsights`:
`Math.max(0, 1 - snapshot.bear / Math.max(snapshot.base, 1))`. -/
def downsideRisk (snapshot : ValuationSnapshot) : ℚ :=
  max 0 (1 - snapshot.bear / max snapshot.base 1)

/-- Insight 1: stage-appropriate valuation context. -/
def methodInsight (inputs : StartupInputs) (snapshot : ValuationSnapshot) : String :=
  if inputs.stage = Stage.concept ∨
      (inputs.stage = Stage.seed ∧ inputs.arr * 1000000 < 100000) then
    baseNameOf inputs ++ " at " ++ snapshot.stageLabel ++
      " stage is valued using the Berkus Method. Team strength (" ++
      toFixed inputs.teamStrength 1 ++ "/5) and product moat (" ++
      toFixed inputs.differentiation 1 ++
      "/5) are the primary value drivers at this pre-revenue stage. Typical range: " ++
      (stageConfig inputs.stage).typicalRange ++ "."
  else
    baseNameOf inputs ++ " commands a " ++ toFixed snapshot.revenueMultiple 1 ++
      "x ARR multiple, reflecting " ++ toFixed (annualGrowthRaw inputs * 100) 0 ++
      "% annual growth and " ++ toFixed inputs.grossMargin 0 ++
      "% gross margins. Typical " ++ snapshot.stageLabel ++ " range: " ++
      (stageConfig inputs.stage).typicalRange ++ "."

/-- Insight 2: growth trajectory or pre-revenue guidance. -/
def growthInsight (inputs : StartupInputs) (snapshot : ValuationSnapshot) : String :=
  if inputs.arr * 1000000 > 0 then
    "At " ++ toFixed inputs.monthlyGrowth 1 ++ "% MoM growth, " ++
      baseNameOf inputs ++ " projects " ++ formatCompactCurrency snapshot.forwardArr ++
      " ARR in 12 months—a " ++ toFixed (annualGrowthRaw inputs * 100) 0 ++
      "% year-over-year increase."
  else
    "Without recurring revenue, " ++ baseNameOf inputs ++
      " should focus on achieving product-market fit and first revenue milestones to unlock higher valuations in subsequent rounds."

/-- Insight 3, first tier: profitable (burn multiple 0). -/
def profitableInsight : String :=
  "✅ Profitable or cash-flow positive status is highly attractive to investors, providing optionality and reducing dilution risk. This adds a ~20% valuation premium."

/-- Insight 3, second tier: high-burn warning (burn multiple > 3). -/
def highBurnInsight (inputs : StartupInputs) : String :=
  "⚠️ Burn multiple of " ++ toFixed inputs.burnMultiple 1 ++
    "x signals capital inefficiency. Reducing to <2x could improve valuation by 15-25% and extend runway significantly."

/-- Insight 3, third tier: efficient burn (burn < 1.5 with revenue). -/
def efficientBurnInsight (inputs : StartupInputs) : String :=
  "✅ Efficient burn multiple of " ++ toFixed inputs.burnMultiple 1 ++
    "x demonstrates strong unit economics, positively impacting the valuation multiple and investor confidence."

/-- Insight 3, fourth tier: low-retention warning (net retention < 90). -/
def lowRetentionInsight (inputs : StartupInputs) : String :=
  "⚠️ Net retention at " ++ toFixed inputs.netRetention 0 ++
    "% indicates significant churn concerns. Best-in-class SaaS targets 110%+ NRR. Focus on customer success and product stickiness."

/-- Insight 3, fifth tier: low-margin warning (gross margin < 50). -/
def lowMarginInsight (inputs : StartupInputs) : String :=
  "⚠️ Gross margin of " ++ toFixed inputs.grossMargin 0 ++
    "% is below SaaS benchmarks (70%+). Consider pricing optimization or cost structure improvements to improve unit economics."

/-- Insight 3, default tier: bear-case explanation. -/
def bearCaseInsight (snapshot : ValuationSnapshot) : String :=
  "Bear case of " ++ formatCompactCurrency snapshot.bear ++ " reflects " ++
    toFixed (downsideRisk snapshot * 100) 0 ++
    "% downside risk, accounting for execution risk and market conditions."

/-- Insight 3: efficiency and risks — the source's six-way if/else chain, first
matching condition wins. -/
def efficiencyInsight (inputs : StartupInputs) (snapshot : ValuationSnapshot) : String :=
  if inputs.burnMultiple = 0 then profitableInsight
  else if inputs.burnMultiple > 3 then highBurnInsight inputs
  else if inputs.burnMultiple < 1.5 ∧ inputs.arr * 1000000 > 0 then
    efficientBurnInsight inputs
  else if inputs.netRetention < 90 then lowRetentionInsight inputs
  else if inputs.grossMargin < 50 then lowMarginInsight inputs
  else bearCaseInsight snapshot

/-- Insight 4 (conditionally pushed): stage-specific advancement advice. -/
def stageAdviceInsights (inputs : StartupInputs) : List String :=
  if inputs.stage = Stage.concept then
    ["To progress to Seed, focus on: MVP development, initial customer discovery, and demonstrating founder-market fit. Target: $50K-$500K in early revenue signals."]
  else if inputs.stage = Stage.seed ∧ inputs.arr * 1000000 < 500000 then
    ["Series A readiness typically requires $1M+ ARR with 15%+ MoM growth. Current gap: " ++
      formatCompactCurrency (max 0 (1000000 - inputs.arr * 1000000)) ++ " in ARR."]
  else if inputs.stage = Stage.seriesA ∧ inputs.netRetention > 110 then
    ["Strong NRR of " ++ toFixed inputs.netRetention 0 ++
      "% supports expansion-driven growth—a key Series B readiness indicator alongside $5M+ ARR target."]
  else []

/-- The insight generator `buildInsights(inputs, snapshot)` (exposed to callers
as `computeInsights`): three unconditional entries, an optional stage-advice
entry, capped at 4 by `slice(0, 4)`. -/
def buildInsights (inputs : StartupInputs) (snapshot : ValuationSnapshot) : List String :=
  ([methodInsight inputs snapshot, growthInsight inputs snapshot,
    efficiencyInsight inputs snapshot] ++ stageAdviceInsights inputs).take 4

/-! ### Basic clamp lemmas -/

theorem clamp_le_hi (v lo hi : ℚ) : clamp v lo hi ≤ hi := min_le_right _ _

theorem lo_le_clamp (v : ℚ) {lo hi : ℚ} (h : lo ≤ hi) : lo ≤ clamp v lo hi :=
  le_min (le_max_right v lo) h

theorem clamp_nonneg (v : ℚ) {lo hi : ℚ} (h0 : 0 ≤ lo) (h1 : 0 ≤ hi) :
    0 ≤ clamp v lo hi :=
  le_min (h0.trans (le_max_right v lo)) h1

theorem arrUsd_nonneg (i : StartupInputs) : 0 ≤ arrUsd i := by
  unfold arrUsd arr
  positivity

theorem stageConfig_valuation_bounds (s : Stage) :
    0 ≤ (stageConfig s).baseValuationFloor ∧ 0 ≤ (stageConfig s).baseValuationCeiling := by
  cases s <;> constructor <;> norm_num [stageConfig]

theorem base_nonneg (i : StartupInputs) : 0 ≤ base i := by
  unfold base
  split
  · exact clamp_nonneg _ (stageConfig_valuation_bounds i.stage).1
      (stageConfig_valuation_bounds i.stage).2
  · refine le_min ?_ ?_
    · exact clamp_nonneg _ (stageConfig_valuation_bounds i.stage).1
        (stageConfig_valuation_bounds i.stage).2
    · have := arrUsd_nonneg i
      positivity

/-! ### Claims -/

/-- C1: for every input the returned snapshot satisfies `bear ≤ base ≤ bull`,
with `bull = base * (1 + upsideFactor)` and `bear = base * (1 - downsideFactor)`,
the upside factor clamped to `[0.10, 0.40]` and the downside factor clamped to
`[0.10, 0.35]`. -/
theorem c1_scenario_ordering (i : StartupInputs) :
    ((buildValuation i).bear ≤ (buildValuation i).base ∧
      (buildValuation i).base ≤ (buildValuation i).bull) ∧
    (buildValuation i).bull = (buildValuation i).base * (1 + upsideFactor i) ∧
    (buildValuation i).bear = (buildValuation i).base * (1 - downsideFactor i) ∧
    (0.10 ≤ upsideFactor i ∧ upsideFactor i ≤ 0.40) ∧
    (0.10 ≤ downsideFactor i ∧ downsideFactor i ≤ 0.35) := by
  have hb : 0 ≤ base i := base_nonneg i
  have hu1 : (0.10 : ℚ) ≤ upsideFactor i := by
    unfold upsideFactor
    exact le_trans (by norm_num) (lo_le_clamp _ (by norm_num))
  have hu2 : upsideFactor i ≤ 0.40 := by
    unfold upsideFactor
    exact le_trans (clamp_le_hi _ _ _) (by norm_num)
  have hd1 : (0.10 : ℚ) ≤ downsideFactor i := by
    unfold downsideFactor
    exact le_trans (by norm_num) (lo_le_clamp _ (by norm_num))
  have hd2 : downsideFactor i ≤ 0.35 := by
    unfold downsideFactor
    exact le_trans (clamp_le_hi _ _ _) (by norm_num)
  refine ⟨⟨?_, ?_⟩, rfl, rfl, ⟨hu1, hu2⟩, ⟨hd1, hd2⟩⟩
  · show base i * (1 - downsideFactor i) ≤ base i
    nlinarith
  · show base i ≤ base i * (1 + upsideFactor i)
    nlinarith

/-- C4: for every input the returned confidence lies in `[0.25, 0.90]` and equals
the clamp to that range of `0.30 + revenueTierBonus + 0.15*(retention/150) +
0.10*(team/5) + 0.10*(1 - min(burn,3)/4) + 0.10*(differentiation/5)`, where the
revenue-tier bonus is `0.25` if the clamped ARR in dollars exceeds `$500K`,
`0.15` if it is positive, else `0`, and retention/team/burn/differentiation are
the clamped values. -/
theorem c4_confidence (i : StartupInputs) :
    (buildValuation i).confidence =
      clamp
        (0.30 + (if max i.arr 0 * 1000000 > 500000 then (0.25 : ℚ)
            else if max i.arr 0 * 1000000 > 0 then 0.15 else 0) +
          0.15 * (clamp i.netRetention 50 180 / 150) +
          0.10 * (clamp i.teamStrength 1 5 / 5) +
          0.10 * (1 - min (clamp i.burnMultiple 0 5) 3 / 4) +
          0.10 * (clamp i.differentiation 1 5 / 5))
        0.25 0.90 ∧
    0.25 ≤ (buildValuation i).confidence ∧ (buildValuation i).confidence ≤ 0.90 := by
  refine ⟨rfl, ?_, ?_⟩
  · show (0.25 : ℚ) ≤ confidence i
    exact lo_le_clamp _ (by norm_num)
  · show confidence i ≤ 0.90
    exact clamp_le_hi _ _ _

/-- C2: the Berkus method is used exactly when the stage is `concept`, or the
stage is `seed` and the clamped ARR in dollars is strictly below `$100K`; in
that case the snapshot has `revenueMultiple = 0` and `forwardArr = 0`, and in
every other case the revenue-multiple branch produces the snapshot's multiple,
forward ARR, base and market potential.  In particular `concept` always yields
`revenueMultiple = 0` and `forwardArr = 0`. -/
theorem c2_method_selection (i : StartupInputs) :
    (usesBerkus i ↔
      i.stage = Stage.concept ∨ (i.stage = Stage.seed ∧ max i.arr 0 * 1000000 < 100000)) ∧
    (usesBerkus i →
      (buildValuation i).revenueMultiple = 0 ∧ (buildValuation i).forwardArr = 0) ∧
    (¬ usesBerkus i →
      (buildValuation i).revenueMultiple = revenueMultipleRM i ∧
      (buildValuation i).forwardArr = forwardArrRM i ∧
      (buildValuation i).base = baseRM i ∧
      (buildValuation i).marketPotential = marketPotentialRM i) ∧
    (i.stage = Stage.concept →
      (buildValuation i).revenueMultiple = 0 ∧ (buildValuation i).forwardArr = 0) := by
  have hpos : ∀ h : usesBerkus i,
      (buildValuation i).revenueMultiple = 0 ∧ (buildValuation i).forwardArr = 0 := by
    intro h
    constructor
    · show revenueMultiple i = 0
      unfold revenueMultiple
      rw [if_pos h]
    · show forwardArr i = 0
      unfold forwardArr
      rw [if_pos h]
  refine ⟨Iff.rfl, hpos, fun h => ?_, fun hc => hpos (Or.inl hc)⟩
  refine ⟨?_, ?_, ?_, ?_⟩
  · show revenueMultiple i = revenueMultipleRM i
    unfold revenueMultiple
    rw [if_neg h]
  · show forwardArr i = forwardArrRM i
    unfold forwardArr
    rw [if_neg h]
  · show base i = baseRM i
    unfold base
    rw [if_neg h]
  · show marketPotential i = marketPotentialRM i
    unfold marketPotential
    rw [if_neg h]

/-- C3: in the revenue-multiple branch, `base` is the minimum of the
stage-clamped value `clamp(revenueValuation + marketPotential, floor, ceiling)`
and the `50 × ARR` cap, so the cap (applied after the stage clamp) can only
reduce base relative to the stage-clamped value, never increase it. -/
theorem c3_cap_after_clamp (i : StartupInputs) (h : ¬ usesBerkus i) :
    (buildValuation i).base =
      min
        (clamp (revenueValuation i + marketPotentialRM i)
          (stageConfig i.stage).baseValuationFloor (stageConfig i.stage).baseValuationCeiling)
        (arrUsd i * 50) ∧
    (buildValuation i).base ≤
      clamp (revenueValuation i + marketPotentialRM i)
        (stageConfig i.stage).baseValuationFloor (stageConfig i.stage).baseValuationCeiling := by
  have hb : (buildValuation i).base = baseRM i := by
    show base i = baseRM i
    unfold base
    rw [if_neg h]
  refine ⟨hb, ?_⟩
  rw [hb]
  exact min_le_left _ _

/-- The Series A scenario input of the spec: ARR $2M, 15% MoM growth, $10B TAM,
75% margin, 110% retention, 1x burn, team 4, differentiation 4. -/
def inputSeriesA : StartupInputs :=
  { name := "", stage := .seriesA, arr := 2, monthlyGrowth := 15, tam := 10,
    grossMargin := 75, netRetention := 110, burnMultiple := 1, teamStrength := 4,
    differentiation := 4 }

/-- The concept scenario input of the spec: team 5, differentiation 5, $20B TAM,
no ARR, no growth. -/
def inputConcept : StartupInputs :=
  { name := "", stage := .concept, arr := 0, monthlyGrowth := 0, tam := 20,
    grossMargin := 70, netRetention := 100, burnMultiple := 2, teamStrength := 5,
    differentiation := 5 }

theorem inputSeriesA_not_berkus : ¬ usesBerkus inputSeriesA := by decide

theorem inputSeriesA_annualGrowthRate :
    annualGrowthRate inputSeriesA = 17818624432020321 / 4096000000000000 := by
  norm_num [annualGrowthRate, monthlyGrowth, clamp, inputSeriesA, min_def, max_def]

/-- Witness for C2 at the concept scenario input. -/
theorem c2_method_selection_witness :
    (buildValuation inputConcept).revenueMultiple = 0 ∧
    (buildValuation inputConcept).forwardArr = 0 :=
  (c2_method_selection inputConcept).2.2.2 rfl

/-- Witness for C3 at the Series A scenario input. -/
theorem c3_cap_after_clamp_witness :
    (buildValuation inputSeriesA).base ≤
      clamp (revenueValuation inputSeriesA + marketPotentialRM inputSeriesA)
        (stageConfig inputSeriesA.stage).baseValuationFloor
        (stageConfig inputSeriesA.stage).baseValuationCeiling :=
  (c3_cap_after_clamp inputSeriesA inputSeriesA_not_berkus).2

/-- C5 counterexample: at the Series A scenario input the annual growth rate
`1.15^12 - 1` computed by the code is between 4.35 and 4.36 (≈435%), hence more
than 0.9 below the 5.35 (535%) asserted by the claim — it is not approximately
535%. -/
theorem c5_counterexample :
    annualGrowthRate inputSeriesA < 4.4 ∧
    0.9 < 5.35 - annualGrowthRate inputSeriesA ∧
    (buildValuation inputSeriesA).lifts.growth = 1 + annualGrowthRate inputSeriesA := by
  refine ⟨?_, ?_, rfl⟩ <;> rw [inputSeriesA_annualGrowthRate] <;> norm_num

/-- C5 amended: at the Series A scenario input the annual growth rate
`1.15^12 - 1` is ≈435% (between 4.35 and 4.36), the growth score clamps to 1 so
the base multiple is 25, the margin and retention adjustments are 1, the burn
adjustment is 1.1, the qualitative adjustment is 1.09, the final revenue
multiple is `25 * 1.1 * 1.09 = 29.975` (inside the clamp range `[5, 30]`), and
the returned base is `$62,130,000` (revenue valuation $59.95M plus market
potential $2.18M, within the Series A range `[$10M, $80M]` and below the
`50 × ARR` cap), i.e. near $60M. -/
theorem c5_amended :
    4.35 < annualGrowthRate inputSeriesA ∧ annualGrowthRate inputSeriesA < 4.36 ∧
    growthScore inputSeriesA = 1 ∧
    baseMultiple inputSeriesA = 25 ∧
    marginAdjustment inputSeriesA = 1 ∧
    retentionAdjustment inputSeriesA = 1 ∧
    burnAdjustment (burn inputSeriesA) = 1.1 ∧
    qualitativeAdjustment inputSeriesA = 1.09 ∧
    (buildValuation inputSeriesA).revenueMultiple = 29.975 ∧
    (buildValuation inputSeriesA).base = 62130000 := by
  have hgrow : growthScore inputSeriesA = 1 := by
    rw [growthScore, inputSeriesA_annualGrowthRate]
    norm_num [clamp, min_def, max_def]
  have hbm : baseMultiple inputSeriesA = 25 := by
    rw [baseMultiple, hgrow]
    norm_num [stageConfig, inputSeriesA]
  have hma : marginAdjustment inputSeriesA = 1 := by
    norm_num [marginAdjustment, margin, clamp, inputSeriesA, min_def, max_def]
  have hra : retentionAdjustment inputSeriesA = 1 := by
    norm_num [retentionAdjustment, retention, clamp, inputSeriesA, min_def, max_def]
  have hba : burnAdjustment (burn inputSeriesA) = 1.1 := by
    norm_num [burnAdjustment, burn, clamp, inputSeriesA, min_def, max_def]
  have hqa : qualitativeAdjustment inputSeriesA = 1.09 := by
    norm_num [qualitativeAdjustment, qualitativeScore, team, moat, clamp, inputSeriesA,
      min_def, max_def]
  have hrm : revenueMultipleRM inputSeriesA = 29.975 := by
    rw [revenueMultipleRM, hbm, hma, hra, hba, hqa]
    norm_num [clamp, stageConfig, inputSeriesA, min_def, max_def]
  have hrv : revenueValuation inputSeriesA = 59950000 := by
    rw [revenueValuation, hrm]
    norm_num [arrUsd, arr, inputSeriesA, max_def]
  have hmp : marketPotentialRM inputSeriesA = 2180000 := by
    have hrate : tamCaptureRate inputSeriesA = 0.0002 := rfl
    rw [marketPotentialRM, hrate, hrv, hqa]
    norm_num [tamUsd, inputSeriesA, min_def, max_def]
  refine ⟨?_, ?_, hgrow, hbm, hma, hra, hba, hqa, ?_, ?_⟩
  · rw [inputSeriesA_annualGrowthRate]; norm_num
  · rw [inputSeriesA_annualGrowthRate]; norm_num
  · show revenueMultiple inputSeriesA = 29.975
    rw [revenueMultiple, if_neg inputSeriesA_not_berkus]
    exact hrm
  · show Valuation.base inputSeriesA = 62130000
    rw [Valuation.base, if_neg inputSeriesA_not_berkus, baseRM, hrv, hmp]
    norm_num [arrUsd, arr, clamp, stageConfig, inputSeriesA, min_def, max_def]

/-- C6: at the concept scenario input the Berkus components are $500K (idea),
$100K (prototype, `0.2 × $500K` with no ARR and no growth), $500K (team), $300K
(strategic), $140K (timing, `0.7 × $200K` since TAM > $10B); the sum $1,540,000
lies inside the concept range `[$250K, $2.5M]`, so the returned base is exactly
$1,540,000. -/
theorem c6_berkus_scenario :
    ideaValue inputConcept = 500000 ∧
    prototypeValue inputConcept = 100000 ∧
    teamValue inputConcept = 500000 ∧
    strategicValue inputConcept = 300000 ∧
    marketTimingValue inputConcept = 140000 ∧
    berkusTotal inputConcept = 1540000 ∧
    (buildValuation inputConcept).base = 1540000 := by
  have h6 : usesBerkus inputConcept := Or.inl rfl
  have htot : berkusTotal inputConcept = 1540000 := by
    norm_num [berkusTotal, ideaValue, prototypeValue, teamValue, strategicValue,
      marketTimingValue, arrUsd, arr, tamUsd, monthlyGrowth, team, moat, clamp,
      inputConcept, min_def, max_def]
  refine ⟨?_, ?_, ?_, ?_, ?_, htot, ?_⟩
  · norm_num [ideaValue, moat, clamp, inputConcept, min_def, max_def]
  · norm_num [prototypeValue, arrUsd, arr, monthlyGrowth, clamp, inputConcept,
      min_def, max_def]
  · norm_num [teamValue, team, clamp, inputConcept, min_def, max_def]
  · norm_num [strategicValue, team, moat, clamp, inputConcept, min_def, max_def]
  · norm_num [marketTimingValue, tamUsd, inputConcept, max_def]
  · show Valuation.base inputConcept = 1540000
    rw [Valuation.base, if_pos h6, baseBerkus, htot]
    norm_num [clamp, stageConfig, inputConcept, min_def, max_def]

/-- C7: the burn adjustment applied to the base multiple is exactly 1.2 when the
clamped burn multiple is 0, and in general follows the strictly ordered tiers
1.2 (burn = 0), 1.15 (burn < 1), 1.1 (burn < 1.5), 1.0 (burn < 2),
0.9 (burn < 3), else 0.75, the first matching tier winning. -/
theorem c7_burn_tiers :
    (∀ i : StartupInputs, burn i = 0 → burnAdjustment (burn i) = 1.2) ∧
    (∀ b : ℚ,
      (b = 0 → burnAdjustment b = 1.2) ∧
      (b ≠ 0 → b < 1 → burnAdjustment b = 1.15) ∧
      (1 ≤ b → b < 1.5 → burnAdjustment b = 1.1) ∧
      (1.5 ≤ b → b < 2 → burnAdjustment b = 1) ∧
      (2 ≤ b → b < 3 → burnAdjustment b = 0.9) ∧
      (3 ≤ b → burnAdjustment b = 0.75)) := by
  constructor
  · intro i h
    rw [burnAdjustment, if_pos h]
  · intro b
    refine ⟨fun h => ?_, fun hne h1 => ?_, fun h1 h15 => ?_, fun h15 h2 => ?_,
      fun h2 h3 => ?_, fun h3 => ?_⟩
    · rw [burnAdjustment, if_pos h]
    · rw [burnAdjustment, if_neg hne, if_pos h1]
    · have hb0 : ¬ b = 0 := by intro h0; rw [h0] at h1; norm_num at h1
      have hb1 : ¬ b < 1 := not_lt.mpr h1
      rw [burnAdjustment, if_neg hb0, if_neg hb1, if_pos h15]
    · have hb0 : ¬ b = 0 := by intro h0; rw [h0] at h15; norm_num at h15
      have hb1 : ¬ b < 1 := not_lt.mpr (by linarith)
      have hb15 : ¬ b < 1.5 := not_lt.mpr h15
      rw [burnAdjustment, if_neg hb0, if_neg hb1, if_neg hb15, if_pos h2]
    · have hb0 : ¬ b = 0 := by intro h0; rw [h0] at h2; norm_num at h2
      have hb1 : ¬ b < 1 := not_lt.mpr (by linarith)
      have hb15 : ¬ b < 1.5 := not_lt.mpr (by linarith)
      have hb2 : ¬ b < 2 := not_lt.mpr h2
      rw [burnAdjustment, if_neg hb0, if_neg hb1, if_neg hb15, if_neg hb2, if_pos h3]
    · have hb0 : ¬ b = 0 := by intro h0; rw [h0] at h3; norm_num at h3
      have hb1 : ¬ b < 1 := not_lt.mpr (by linarith)
      have hb15 : ¬ b < 1.5 := not_lt.mpr (by linarith)
      have hb2 : ¬ b < 2 := not_lt.mpr (by linarith)
      have hb3 : ¬ b < 3 := not_lt.mpr h3
      rw [burnAdjustment, if_neg hb0, if_neg hb1, if_neg hb15, if_neg hb2, if_neg hb3]

/-- Witness for C7 at burn 0 and burn 2.5. -/
theorem c7_burn_tiers_witness : burnAdjustment 0 = 1.2 ∧ burnAdjustment 2.5 = 0.9 :=
  ⟨(c7_burn_tiers.2 0).1 rfl,
    (c7_burn_tiers.2 2.5).2.2.2.2.1 (by norm_num) (by norm_num)⟩

/-- `buildValuation` depends on the raw ARR input only through `max arr 0`, and
on no other difference between inputs that agree on every other numeric field
and the stage. -/
theorem buildValuation_congr (i j : StartupInputs)
    (hstage : i.stage = j.stage) (harr : max i.arr 0 = max j.arr 0)
    (hg : i.monthlyGrowth = j.monthlyGrowth) (htam : i.tam = j.tam)
    (hm : i.grossMargin = j.grossMargin) (hr : i.netRetention = j.netRetention)
    (hb : i.burnMultiple = j.burnMultiple) (ht : i.teamStrength = j.teamStrength)
    (hd : i.differentiation = j.differentiation) :
    buildValuation i = buildValuation j := by
  have hub : usesBerkus i = usesBerkus j := by
    unfold usesBerkus arrUsd arr
    rw [hstage, harr]
  simp only [buildValuation, bear, base, bull, revenueMultiple, forwardArr,
    marketPotential, confidence, baseBerkus, baseRM, berkusTotal, ideaValue,
    prototypeValue, teamValue, strategicValue, marketTimingValue, marketPotentialBerkus,
    revenueMultipleRM, revenueValuation, forwardArrRM, marketPotentialRM, tamCaptureRate,
    baseMultiple, growthScore, marginAdjustment, retentionAdjustment,
    qualitativeAdjustment, qualitativeScore, upsideFactor, downsideFactor,
    annualGrowthRate, monthlyGrowth, margin, retention, burn, team, moat, arrUsd, arr,
    tamUsd, hub, hstage, harr, hg, htam, hm, hr, hb, ht, hd]

/-- C8: two inputs identical except that one has raw ARR -5 and the other raw
ARR 0 produce equal `ValuationSnapshot` records — negative ARR is clamped to 0
before any arithmetic. -/
theorem c8_negative_arr (i : StartupInputs) :
    buildValuation { i with arr := -5 } = buildValuation { i with arr := 0 } := by
  refine buildValuation_congr _ _ rfl ?_ rfl rfl rfl rfl rfl rfl rfl
  show max (-5 : ℚ) 0 = max 0 0
  norm_num [max_def]

/-- C10: in the revenue-multiple branch with clamped ARR equal to 0 the returned
base, bear and bull are all exactly 0 (the 50×ARR cap is applied after the
stage clamp, so the positive stage floor does not survive), while the returned
revenue multiple is still positive — at least half the stage's minimum
multiple. -/
theorem c10_zero_arr (i : StartupInputs) (h : ¬ usesBerkus i) (h0 : arr i = 0) :
    (buildValuation i).base = 0 ∧ (buildValuation i).bear = 0 ∧
    (buildValuation i).bull = 0 ∧
    (stageConfig i.stage).revenueMultipleRange.1 * 0.5 ≤
      (buildValuation i).revenueMultiple ∧
    0 < (buildValuation i).revenueMultiple := by
  have hau : arrUsd i = 0 := by
    unfold arrUsd
    rw [h0]
    norm_num
  have hstage3 : i.stage = Stage.seriesA ∨ i.stage = Stage.seriesB ∨
      i.stage = Stage.seriesC := by
    cases hs : i.stage
    · exact absurd (Or.inl hs) h
    · refine absurd (Or.inr ⟨hs, ?_⟩) h
      rw [hau]
      norm_num
    · exact Or.inl rfl
    · exact Or.inr (Or.inl rfl)
    · exact Or.inr (Or.inr rfl)
  have hbase : Valuation.base i = 0 := by
    rw [Valuation.base, if_neg h, baseRM, hau]
    have hnn : 0 ≤ clamp (revenueValuation i + marketPotentialRM i)
        (stageConfig i.stage).baseValuationFloor (stageConfig i.stage).baseValuationCeiling :=
      clamp_nonneg _ (stageConfig_valuation_bounds i.stage).1
        (stageConfig_valuation_bounds i.stage).2
    rw [show (0 : ℚ) * 50 = 0 by norm_num]
    exact min_eq_right hnn
  have hlohi : (stageConfig i.stage).revenueMultipleRange.1 * 0.5 ≤
      (stageConfig i.stage).revenueMultipleRange.2 * 1.2 ∧
      0 < (stageConfig i.stage).revenueMultipleRange.1 * 0.5 := by
    rcases hstage3 with hs | hs | hs <;> rw [hs] <;> norm_num [stageConfig]
  have hle : (stageConfig i.stage).revenueMultipleRange.1 * 0.5 ≤ revenueMultipleRM i :=
    lo_le_clamp _ hlohi.1
  refine ⟨hbase, ?_, ?_, ?_, ?_⟩
  · show Valuation.bear i = 0
    rw [Valuation.bear, hbase, zero_mul]
  · show Valuation.bull i = 0
    rw [Valuation.bull, hbase, zero_mul]
  · show (stageConfig i.stage).revenueMultipleRange.1 * 0.5 ≤ Valuation.revenueMultiple i
    rw [Valuation.revenueMultiple, if_neg h]
    exact hle
  · show 0 < Valuation.revenueMultiple i
    rw [Valuation.revenueMultiple, if_neg h]
    exact lt_of_lt_of_le hlohi.2 hle

/-- An input in the revenue-multiple branch whose clamped ARR is 0. -/
def inputZeroArr : StartupInputs :=
  { name := "", stage := .seriesA, arr := -1, monthlyGrowth := 0, tam := 1,
    grossMargin := 70, netRetention := 100, burnMultiple := 2, teamStrength := 3,
    differentiation := 3 }

/-- Witness for C10 at a Series A input with negative raw ARR. -/
theorem c10_zero_arr_witness :
    (buildValuation inputZeroArr).base = 0 ∧
    0 < (buildValuation inputZeroArr).revenueMultiple := by
  have h := c10_zero_arr inputZeroArr (by decide)
    (by norm_num [arr, inputZeroArr, max_def])
  exact ⟨h.1, h.2.2.2.2⟩

theorem buildInsights_third (inputs : StartupInputs) (snapshot : ValuationSnapshot) :
    (buildInsights inputs snapshot)[2]? = some (efficiencyInsight inputs snapshot) := by
  unfold buildInsights
  cases stageAdviceInsights inputs <;> simp

/-- C9: for every input and snapshot, `computeInsights` returns at most 4
strings; the fourth stage-advice entry appears exactly when the stage is
concept, or seed with raw ARR below the $500K readiness threshold, or Series A
with net retention above 110% — otherwise the list has exactly 3 entries; and
the third entry is chosen by the first matching condition in the order
profitable (burn = 0), high-burn warning (burn > 3), efficient burn
(burn < 1.5 with revenue), low-retention warning (retention < 90), low-margin
warning (margin < 50), default bear-case explanation. -/
theorem c9_insight_list (inputs : StartupInputs) (snapshot : ValuationSnapshot) :
    (buildInsights inputs snapshot).length ≤ 4 ∧
    ((buildInsights inputs snapshot).length =
      if inputs.stage = Stage.concept ∨
          (inputs.stage = Stage.seed ∧ inputs.arr * 1000000 < 500000) ∨
          (inputs.stage = Stage.seriesA ∧ inputs.netRetention > 110)
        then 4 else 3) ∧
    (inputs.burnMultiple = 0 →
      (buildInsights inputs snapshot)[2]? = some profitableInsight) ∧
    (inputs.burnMultiple ≠ 0 → inputs.burnMultiple > 3 →
      (buildInsights inputs snapshot)[2]? = some (highBurnInsight inputs)) ∧
    (inputs.burnMultiple ≠ 0 → ¬ inputs.burnMultiple > 3 →
      inputs.burnMultiple < 1.5 ∧ inputs.arr * 1000000 > 0 →
      (buildInsights inputs snapshot)[2]? = some (efficientBurnInsight inputs)) ∧
    (inputs.burnMultiple ≠ 0 → ¬ inputs.burnMultiple > 3 →
      ¬ (inputs.burnMultiple < 1.5 ∧ inputs.arr * 1000000 > 0) →
      inputs.netRetention < 90 →
      (buildInsights inputs snapshot)[2]? = some (lowRetentionInsight inputs)) ∧
    (inputs.burnMultiple ≠ 0 → ¬ inputs.burnMultiple > 3 →
      ¬ (inputs.burnMultiple < 1.5 ∧ inputs.arr * 1000000 > 0) →
      ¬ inputs.netRetention < 90 → inputs.grossMargin < 50 →
      (buildInsights inputs snapshot)[2]? = some (lowMarginInsight inputs)) ∧
    (inputs.burnMultiple ≠ 0 → ¬ inputs.burnMultiple > 3 →
      ¬ (inputs.burnMultiple < 1.5 ∧ inputs.arr * 1000000 > 0) →
      ¬ inputs.netRetention < 90 → ¬ inputs.grossMargin < 50 →
      (buildInsights inputs snapshot)[2]? = some (bearCaseInsight snapshot)) := by
  have h3 := buildInsights_third inputs snapshot
  refine ⟨?_, ?_, fun hb0 => ?_, fun hb0 hb3 => ?_, fun hb0 hb3 heff => ?_,
    fun hb0 hb3 heff hret => ?_, fun hb0 hb3 heff hret hmar => ?_,
    fun hb0 hb3 heff hret hmar => ?_⟩
  · unfold buildInsights
    cases stageAdviceInsights inputs <;> simp [List.length_take]
  · unfold buildInsights stageAdviceInsights
    split_ifs <;>
      (simp_all
       all_goals
         first
           | tauto
           | linarith
           | (rcases ‹_ ∨ _› with ⟨hs, hv⟩ | ⟨hs, hv⟩ <;> (simp_all; linarith)))
  · rw [h3, efficiencyInsight, if_pos hb0]
  · rw [h3, efficiencyInsight, if_neg hb0, if_pos hb3]
  · rw [h3, efficiencyInsight, if_neg hb0, if_neg hb3, if_pos heff]
  · rw [h3, efficiencyInsight, if_neg hb0, if_neg hb3, if_neg heff, if_pos hret]
  · rw [h3, efficiencyInsight, if_neg hb0, if_neg hb3, if_neg heff, if_neg hret,
      if_pos hmar]
  · rw [h3, efficiencyInsight, if_neg hb0, if_neg hb3, if_neg heff, if_neg hret,
      if_neg hmar]

/-- A profitable (burn 0) Series B input outside every stage-advice case. -/
def inputProfitable : StartupInputs :=
  { name := "", stage := .seriesB, arr := 1, monthlyGrowth := 5, tam := 1,
    grossMargin := 70, netRetention := 100, burnMultiple := 0, teamStrength := 3,
    differentiation := 3 }

/-- Witness for C9: at a profitable Series B input the list has exactly 3
entries and the third is the profitability insight. -/
theorem c9_insight_list_witness :
    (buildInsights inputProfitable (buildValuation inputProfitable)).length = 3 ∧
    (buildInsights inputProfitable (buildValuation inputProfitable))[2]? =
      some profitableInsight := by
  have h := c9_insight_list inputProfitable (buildValuation inputProfitable)
  have hl := h.2.1
  rw [if_neg (by decide)] at hl
  exact ⟨hl, h.2.2.1 rfl⟩

end Valuation
